import Mathlib

/-!
Shallow embedding of the active-dreaming-memory core:
the dual-collection vector store (`src/scalable_agent/memory/vector_store.py`),
the hybrid retriever (`src/scalable_agent/memory/retrieval.py`),
the sandboxed executor (`src/scalable_agent/core/executor.py`) and the
consolidation engine (`src/scalable_agent/core/dreamer.py`).

External collaborators (the ChromaDB vector index, the sklearn DBSCAN
clusterer, the OpenAI completion client, the embedding function and the
operating-system process runner) are modelled as explicit function
parameters; the repository's own logic is translated statement by
statement.
-/

namespace ADMem

/-! Python values: metadata entries and formatted query dictionaries. -/

/-- Metadata value as stored in a record's metadata mapping (string, int or bool). -/
inductive MetaVal where
  | str (s : String)
  | int (n : Int)
  | bool (b : Bool)
deriving DecidableEq, Repr

/-- Rendering of a metadata value inside a Python f-string. -/
def MetaVal.render : MetaVal → String
  | MetaVal.str s => s
  | MetaVal.int n => toString n
  | MetaVal.bool b => if b then "True" else "False"

/-- Metadata mapping, e.g. `{"outcome": "FAILURE", "error_type": "RuntimeError"}`. -/
abbrev Metadata := List (String × MetaVal)

/-- Dictionary lookup on a metadata mapping (first binding wins). -/
def metaGet : Metadata → String → Option MetaVal
  | [], _ => none
  | (k, v) :: rest, key => if k = key then some v else metaGet rest key

/-- Value stored under a key of a formatted query-result dictionary. -/
inductive Val where
  | str (s : String)
  | rat (q : Rat)
  | emb (v : List Rat)
  | meta (m : Metadata)
  | pynone
deriving DecidableEq, Repr

/-- Python dictionary produced by `VectorStore._format_results`: an association
list of keys to values; an absent key models a `KeyError` on access. -/
abbrev PyDict := List (String × Val)

/-- Dictionary lookup; `none` models a Python `KeyError`. -/
def dictGet : PyDict → String → Option Val
  | [], _ => none
  | (k, v) :: rest, key => if k = key then some v else dictGet rest key

/-- Access `d["content"]` on a formatted result dictionary. -/
def dictContent (d : PyDict) : String :=
  match dictGet d "content" with
  | some (Val.str s) => s
  | _ => ""

/-- Access `e["metadata"].get("outcome", "Unknown")` as rendered in the
retriever's f-string. -/
def dictOutcome (d : PyDict) : String :=
  match dictGet d "metadata" with
  | some (Val.meta m) =>
      match metaGet m "outcome" with
      | some v => v.render
      | none => "Unknown"
  | _ => "Unknown"

/-- Access `f["embedding"]`; `none` models the `KeyError` raised when the
key is absent from the dictionary. -/
def getEmbedding (d : PyDict) : Option (List Rat) :=
  match dictGet d "embedding" with
  | some (Val.emb v) => some v
  | _ => none

/-! Python string primitives (`str.strip`, `str.replace`), modelled
structurally on the character list so they evaluate by kernel reduction. -/

/-- Characters of `str.strip()`: drop leading and trailing whitespace. -/
def pyStripChars (l : List Char) : List Char :=
  ((l.dropWhile Char.isWhitespace).reverse.dropWhile Char.isWhitespace).reverse

/-- Python `s.strip()`. -/
def pyStrip (s : String) : String := String.mk (pyStripChars s.data)

/-- Whether `pat` occurs at the head of the second list. -/
def matchesAt : List Char → List Char → Bool
  | [], _ => true
  | _ :: _, [] => false
  | p :: ps, c :: cs => p == c && matchesAt ps cs

/-- Fuel-indexed worker for `pyReplace`; replaces non-overlapping occurrences
left to right, as Python `str.replace` does. -/
def replaceAux (pat repl : List Char) : Nat → List Char → List Char
  | 0, l => l
  | _ + 1, [] => []
  | fuel + 1, c :: cs =>
      if matchesAt pat (c :: cs) then
        repl ++ replaceAux pat repl fuel (List.drop (pat.length - 1) cs)
      else
        c :: replaceAux pat repl fuel cs

/-- Python `s.replace(pat, repl)` for a non-empty pattern. -/
def pyReplace (s pat repl : String) : String :=
  if pat.data.isEmpty then s
  else String.mk (replaceAux pat.data repl.data s.data.length s.data)

/-! Stable sorting, used to model the similarity ordering of the vector
index (ascending distance, ties kept in insertion order). -/

/-- Insert into a sorted list, before any later element it compares
less-or-equal to (stable for equal keys). -/
def insertSorted {α : Type _} (le : α → α → Bool) (x : α) : List α → List α
  | [] => [x]
  | y :: ys => if le x y then x :: y :: ys else y :: insertSorted le x ys

/-- Stable insertion sort by a boolean comparison. -/
def insertionSortBy {α : Type _} (le : α → α → Bool) : List α → List α
  | [] => []
  | x :: xs => insertSorted le x (insertionSortBy le xs)

/-! Executor (`src/scalable_agent/core/executor.py`). -/

/-- Outcome of the external `subprocess.run` call on the staged code:
either the process terminated (within the timeout) with captured stdout,
stderr and a return code, or the timeout expired, or launching/running the
process raised an exception with the given text. -/
inductive ProcOutcome where
  | completed (stdout stderr : String) (returncode : Int)
  | timedOut
  | raised (msg : String)
deriving DecidableEq, Repr

/-- Result dictionary of `Executor.execute`. -/
structure ExecResult where
  success : Bool
  output : String
  return_code : Int
deriving DecidableEq, Repr

/-- The `try/except` body of `Executor.execute`: build the result dictionary
from the subprocess outcome (lines 16-47 of executor.py). -/
def execResultOf : ProcOutcome → ExecResult
  | ProcOutcome.completed out err rc =>
      { success := rc == 0, output := out ++ err, return_code := rc }
  | ProcOutcome.timedOut =>
      { success := false, output := "Execution Timed Out", return_code := -1 }
  | ProcOutcome.raised msg =>
      { success := false, output := msg, return_code := -1 }

/-- Name of the staging file `temp_exec_{os.getpid()}.py`. -/
def tempFileName (pid : Nat) : String := "temp_exec_" ++ toString pid ++ ".py"

/-- `Executor.execute` with the file system made explicit: the staging file
is created, the subprocess runs, and the `finally` block removes the file
when it exists.  `fs` is the set of file names existing before the call. -/
def Executor.executeFs (procRun : String → Nat → ProcOutcome) (fs : Finset String)
    (pid : Nat) (code : String) (timeout : Nat) : ExecResult × Finset String :=
  let name := tempFileName pid
  let fs1 := insert name fs
  let result := execResultOf (procRun code timeout)
  let fs2 := if name ∈ fs1 then fs1.erase name else fs1
  (result, fs2)

/-- `Executor.execute(code, timeout)`: the returned result dictionary. -/
def Executor.execute (procRun : String → Nat → ProcOutcome) (code : String)
    (timeout : Nat) : ExecResult :=
  execResultOf (procRun code timeout)

/-! Vector store (`src/scalable_agent/memory/vector_store.py`).  The ChromaDB
collections are modelled as lists of records carrying the embedding computed
at write time; the similarity query (external index) follows the spec's
similarity-query contract: filter, sort by ascending distance (stable),
truncate. -/

/-- One stored record of a ChromaDB collection. -/
structure EmbRec where
  id : Nat
  document : String
  metadata : Metadata
  embedding : List Rat
deriving DecidableEq, Repr

/-- The dual-collection store; `nextId` models the fresh-id supply
(`uuid.uuid4()` never repeats an id already in use). -/
structure VectorStore where
  episodic : List EmbRec
  semantic : List EmbRec
  nextId : Nat
deriving DecidableEq, Repr

/-- All ids already present are below the fresh-id counter. -/
def VectorStore.wellFormed (s : VectorStore) : Bool :=
  (s.episodic ++ s.semantic).all (fun r => decide (r.id < s.nextId))

/-- `VectorStore.add_episode(text, metadata)`: append a fresh-id record to the
episodic collection.  The Python method has no return statement, so the call
evaluates to `None`, modelled by the `Option Nat` component. -/
def VectorStore.add_episode (embed : String → List Rat) (s : VectorStore)
    (text : String) (metadata : Metadata) : VectorStore × Option Nat :=
  ({ s with episodic := s.episodic ++ [⟨s.nextId, text, metadata, embed text⟩],
            nextId := s.nextId + 1 }, none)

/-- `VectorStore.add_rule(rule, metadata)`: same against the semantic
collection; also returns `None`. -/
def VectorStore.add_rule (embed : String → List Rat) (s : VectorStore)
    (rule : String) (metadata : Metadata) : VectorStore × Option Nat :=
  ({ s with semantic := s.semantic ++ [⟨s.nextId, rule, metadata, embed rule⟩],
            nextId := s.nextId + 1 }, none)

/-- Raw ChromaDB query result (parallel lists, one inner list per query
text; `distances` may be absent). -/
structure ChromaResults where
  documents : List (List String)
  metadatas : List (List Metadata)
  distances : Option (List (List Rat))
deriving DecidableEq, Repr

/-- ChromaDB `where` filter: exact key/value equality on every listed field. -/
def matchesWhere (w : Option Metadata) (m : Metadata) : Bool :=
  match w with
  | none => true
  | some kvs => kvs.all (fun kv => decide (metaGet m kv.1 = some kv.2))

/-- The external collection query: embed the query text, keep records whose
metadata matches the filter, order by ascending distance (stable) and keep
the first `n` records. -/
def collectionQuery (embed : String → List Rat) (dist : List Rat → List Rat → Rat)
    (recs : List EmbRec) (qtext : String) (n : Nat) (w : Option Metadata) : ChromaResults :=
  let q := embed qtext
  let filtered := recs.filter (fun r => matchesWhere w r.metadata)
  let top := (insertionSortBy
      (fun a b => decide (dist q a.embedding ≤ dist q b.embedding)) filtered).take n
  { documents := [top.map (fun r => r.document)],
    metadatas := [top.map (fun r => r.metadata)],
    distances := some [top.map (fun r => dist q r.embedding)] }

/-- The `"distance"` entry of a formatted dictionary:
`results['distances'][0][i] if results['distances'] else None`. -/
def distanceVal (distances : Option (List (List Rat))) (i : Nat) : Val :=
  match distances with
  | none => Val.pynone
  | some [] => Val.pynone
  | some (d0 :: _) => Val.rat (d0.getD i 0)

/-- `VectorStore._format_results` (lines 61-75): one dictionary per returned
document, with exactly the keys `content`, `metadata` and `distance`. -/
def VectorStore.formatResults (results : ChromaResults) : List PyDict :=
  match results.documents with
  | [] => []
  | docs0 :: _ =>
      (List.range docs0.length).map (fun i =>
        [("content", Val.str (docs0.getD i "")),
         ("metadata", Val.meta ((results.metadatas.getD 0 []).getD i [])),
         ("distance", distanceVal results.distances i)])

/-- `VectorStore.query_episodic(query, n_results, where)`. -/
def VectorStore.query_episodic (embed : String → List Rat) (dist : List Rat → List Rat → Rat)
    (s : VectorStore) (query : String) (n_results : Nat) (w : Option Metadata) : List PyDict :=
  VectorStore.formatResults (collectionQuery embed dist s.episodic query n_results w)

/-- `VectorStore.query_semantic(query, n_results)` (no filter). -/
def VectorStore.query_semantic (embed : String → List Rat) (dist : List Rat → List Rat → Rat)
    (s : VectorStore) (query : String) (n_results : Nat) : List PyDict :=
  VectorStore.formatResults (collectionQuery embed dist s.semantic query n_results none)

/-! Hybrid retriever (`src/scalable_agent/memory/retrieval.py`). -/

/-- Line 20 of retrieval.py:
`where_filter = {"error_type": error_type} if error_type else None`.
Python truthiness: `None` and the empty string both yield no filter. -/
def retrievalWhere (error_type : Option String) : Option Metadata :=
  match error_type with
  | some et => if et = "" then none else some [("error_type", MetaVal.str et)]
  | none => none

/-- The parts appended for the rules section (lines 26-29): header then one
line per rule; nothing when the rules list is empty. -/
def rulesSectionOf (rules : List PyDict) : List String :=
  if rules.isEmpty then []
  else "--- ESTABLISHED RULES ---" :: rules.map (fun r => "RULE: " ++ dictContent r)

/-- The parts appended for the episodes section (lines 31-35): header then
one entry per episode annotated with its outcome; nothing when empty. -/
def episodesSectionOf (episodes : List PyDict) : List String :=
  if episodes.isEmpty then []
  else "\n--- RELEVANT PAST EXPERIENCES ---" ::
    episodes.map (fun e => "EPISODE: " ++ dictContent e ++ "\nOUTCOME: " ++ dictOutcome e)

/-- `HybridRetriever.retrieve_context(query, error_type)`: two store queries
then `"\n".join(context_parts)`. -/
def HybridRetriever.retrieve_context (embed : String → List Rat)
    (dist : List Rat → List Rat → Rat) (store : VectorStore)
    (query : String) (error_type : Option String) : String :=
  let rules := store.query_semantic embed dist query 2
  let episodes := store.query_episodic embed dist query 3 (retrievalWhere error_type)
  String.intercalate "\n" (rulesSectionOf rules ++ episodesSectionOf episodes)

/-! Consolidation engine (`src/scalable_agent/core/dreamer.py`). -/

/-- The Dreamer's instance state (`__init__`, lines 9-17): the store it
writes to, the clustering constants and the two consolidation counters. -/
structure Dreamer where
  store : VectorStore
  epsilon : Rat
  min_pts : Nat
  false_consolidations : Nat
  total_consolidations : Nat
deriving DecidableEq, Repr

/-- `Dreamer.__init__`: epsilon 0.3, min_pts 2, both counters zero. -/
def mkDreamer (store : VectorStore) : Dreamer :=
  { store := store, epsilon := (3 : Rat) / 10, min_pts := 2,
    false_consolidations := 0, total_consolidations := 0 }

/-- Observable interactions of one consolidation cycle: the episodic fetch,
each verifier call with its outcome, and each semantic-memory write. -/
inductive Event where
  | queryEpisodic (query : String) (n_results : Nat) (w : Option Metadata)
  | verifyCall (scenario : String) (success : Bool)
  | storeRule (content : String) (metadata : Metadata)
deriving DecidableEq, Repr

/-- The abstraction prompt of `Dreamer._abstract_rule` (lines 104-111). -/
def abstractPrompt (context : String) : String :=
  "Analyze these similar failure logs and synthesize ONE generalizable rule.\n\nFailures:\n"
    ++ context
    ++ "\n\nFormat your rule as: \"IF [condition] THEN [action] BECAUSE [insight]\"\n\nRule:"

/-- `Dreamer._abstract_rule` (lines 99-122): build the prompt from the
cluster's contents, call the completion oracle at temperature 0.5, strip the
reply; any oracle exception is caught and yields the sentinel string. -/
def abstractRule (oracle : String → Rat → Except String String)
    (cluster_failures : List PyDict) : String :=
  let context := String.intercalate "\n" (cluster_failures.map (fun f => "- " ++ dictContent f))
  match oracle (abstractPrompt context) ((1 : Rat) / 2) with
  | Except.ok s => pyStrip s
  | Except.error _ => "Error abstracting rule."

/-- The dream prompt of `Dreamer._generate_dream_scenario` (lines 129-140). -/
def dreamPrompt (rule : String) : String :=
  "You are a scenario generator for testing coding rules.\n\nRule to test: \""
    ++ rule
    ++ "\"\n\nGenerate a NOVEL Python code scenario where:\n1. Ignoring this rule would cause a failure\n2. Following this rule leads to success\n3. The scenario is DIFFERENT from typical examples\n\nReturn ONLY executable Python code (no markdown, no explanations).\n\nCode:"

/-- `Dreamer._generate_dream_scenario` (lines 124-154): oracle call at
temperature 0.8, markdown fences removed, stripped; any oracle exception is
caught and yields the sentinel scenario. -/
def generateDreamScenario (oracle : String → Rat → Except String String)
    (rule : String) : String :=
  match oracle (dreamPrompt rule) ((4 : Rat) / 5) with
  | Except.ok s => pyStrip (pyReplace (pyReplace (pyStrip s) "```python" "") "```" "")
  | Except.error _ => "print(\x27Error generating dream\x27)"

/-- `Dreamer._verify_rule` (lines 156-169): run the dream scenario through
the executor (default timeout 10) and report `result['success']`. -/
def verifyRule (procRun : String → Nat → ProcOutcome) (dream_code : String) : Bool :=
  (Executor.execute procRun dream_code 10).success

/-- Metadata attached by `Dreamer.dream` when consolidating a verified rule
(lines 73-78). -/
def ruleMetadata (cluster_size : Nat) (cluster_id : Int) : Metadata :=
  [("source", MetaVal.str "dream_consolidation"),
   ("verified", MetaVal.bool true),
   ("cluster_size", MetaVal.int (cluster_size : Int)),
   ("cluster_id", MetaVal.int cluster_id)]

/-- Lines 52-53: the fetched failures whose cluster label equals `cid`. -/
def clusterFailuresOf (failures : List PyDict) (clusters : List Int) (cid : Int) : List PyDict :=
  ((List.range clusters.length).filter (fun i => decide (clusters.getD i (-1) = cid))).map
    (fun i => failures.getD i [])

/-- Whether the candidate rule abstracted from cluster `cid` passes
counterfactual verification. -/
def clusterVerified (oracle : String → Rat → Except String String)
    (procRun : String → Nat → ProcOutcome)
    (failures : List PyDict) (clusters : List Int) (cid : Int) : Bool :=
  verifyRule procRun (generateDreamScenario oracle (abstractRule oracle (clusterFailuresOf failures clusters cid)))

/-- One iteration of the per-cluster loop of `Dreamer.dream` (lines 51-83):
abstract a candidate, generate the dream scenario, verify it, bump
`total_consolidations`, then either consolidate the rule to semantic memory
or bump `false_consolidations`. -/
def processCluster (oracle : String → Rat → Except String String)
    (procRun : String → Nat → ProcOutcome) (embed : String → List Rat)
    (failures : List PyDict) (clusters : List Int)
    (st : Dreamer × List Event) (cid : Int) : Dreamer × List Event :=
  let cf := clusterFailuresOf failures clusters cid
  let rule := abstractRule oracle cf
  let scen := generateDreamScenario oracle rule
  let verified := verifyRule procRun scen
  let d1 : Dreamer := { st.1 with total_consolidations := st.1.total_consolidations + 1 }
  if verified then
    ({ d1 with store := (d1.store.add_rule embed rule (ruleMetadata cf.length cid)).1 },
      st.2 ++ [Event.verifyCall scen true, Event.storeRule rule (ruleMetadata cf.length cid)])
  else
    ({ d1 with false_consolidations := d1.false_consolidations + 1 },
      st.2 ++ [Event.verifyCall scen false])

/-- Line 43: `set(clusters) - {-1}`, iterated in ascending order. -/
def uniqueClustersOf (clusters : List Int) : List Int :=
  insertionSortBy (fun a b => decide (a ≤ b)) ((clusters.filter (fun c => decide (c ≠ -1))).dedup)

/-- The consolidation loop of `Dreamer.dream` from line 41 on, given the
fetched failure dictionaries and their extracted embeddings: cluster with
DBSCAN (external, a function of epsilon, min_pts and the embeddings) and
fold the per-cluster step over every non-noise cluster. -/
def dreamBody (oracle : String → Rat → Except String String)
    (clusterFn : Rat → Nat → List (List Rat) → List Int)
    (procRun : String → Nat → ProcOutcome) (embed : String → List Rat)
    (failures : List PyDict) (embs : List (List Rat))
    (d : Dreamer) (ev0 : List Event) : Dreamer × List Event :=
  let clusters := clusterFn d.epsilon d.min_pts embs
  (uniqueClustersOf clusters).foldl (processCluster oracle procRun embed failures clusters) (d, ev0)

/-- The `where` filter of the fetch at line 31: `{"outcome": "FAILURE"}`. -/
def failureFilter : Option Metadata := some [("outcome", MetaVal.str "FAILURE")]

/-- `Dreamer.dream` (lines 19-88): fetch up to 20 failure episodes, return
unchanged when fewer than `min_pts` were found, extract each fetched
episode's `f['embedding']` (a `KeyError`, modelled as `Except.error`, when a
dictionary lacks the key), then run the consolidation loop. -/
def Dreamer.dream (oracle : String → Rat → Except String String)
    (clusterFn : Rat → Nat → List (List Rat) → List Int)
    (procRun : String → Nat → ProcOutcome) (embed : String → List Rat)
    (dist : List Rat → List Rat → Rat) (d : Dreamer) :
    Except String (Dreamer × List Event) :=
  let failures := d.store.query_episodic embed dist "failure error" 20 failureFilter
  let ev0 : List Event := [Event.queryEpisodic "failure error" 20 failureFilter]
  if failures.isEmpty || failures.length < d.min_pts then Except.ok (d, ev0)
  else
    match failures.mapM getEmbedding with
    | none => Except.error "KeyError: embedding"
    | some embs => Except.ok (dreamBody oracle clusterFn procRun embed failures embs d ev0)

/-- Result dictionary of `Dreamer.get_consolidation_stats`. -/
structure ConsolidationStats where
  total_consolidations : Nat
  false_consolidations : Nat
  false_consolidation_rate : Rat
deriving DecidableEq, Repr

/-- `Dreamer.get_consolidation_stats` (lines 171-177): the rate is
`false_consolidations / total_consolidations * 100` when any consolidation
happened, else 0. -/
def Dreamer.get_consolidation_stats (d : Dreamer) : ConsolidationStats :=
  { total_consolidations := d.total_consolidations,
    false_consolidations := d.false_consolidations,
    false_consolidation_rate :=
      if 0 < d.total_consolidations then
        (d.false_consolidations : Rat) / (d.total_consolidations : Rat) * 100
      else 0 }

/-! Verification-side predicates and concrete instantiations of the external
collaborators, used to exercise the theorems on closed inputs. -/

/-- A semantic-memory record was committed with the dream-consolidation
metadata, its dream scenario passes verification, and in the cycle's event
trace the successful verifier call on that scenario precedes the write. -/
def consolidatedWithVerification (oracle : String → Rat → Except String String)
    (procRun : String → Nat → ProcOutcome) (evs : List Event) (r : EmbRec) : Prop :=
  (∃ size cid, r.metadata = ruleMetadata size cid) ∧
  verifyRule procRun (generateDreamScenario oracle r.document) = true ∧
  ∃ l₁ l₂, evs = l₁ ++ Event.storeRule r.document r.metadata :: l₂ ∧
    Event.verifyCall (generateDreamScenario oracle r.document) true ∈ l₁

/-- Concrete embedding function: one-dimensional, the text's length. -/
def embedW : String → List Rat := fun s => [(s.length : Rat)]

/-- Concrete distance function: constant zero (ties broken by insertion order). -/
def distW : List Rat → List Rat → Rat := fun _ _ => 0

/-- Completion oracle that always answers with a fixed rule text. -/
def oracleOkW : String → Rat → Except String String :=
  fun _ _ => Except.ok "IF a THEN b BECAUSE c"

/-- Completion oracle that always raises. -/
def oracleFailW : String → Rat → Except String String :=
  fun _ _ => Except.error "boom"

/-- DBSCAN stub putting both of two points into cluster 0. -/
def clusterOneW : Rat → Nat → List (List Rat) → List Int := fun _ _ _ => [0, 0]

/-- Process runner whose subprocess always exits cleanly. -/
def procRunOkW : String → Nat → ProcOutcome := fun _ _ => ProcOutcome.completed "ok" "" 0

/-- Process runner whose subprocess launch always raises. -/
def procRunFailW : String → Nat → ProcOutcome := fun _ _ => ProcOutcome.raised "boom"

/-- Empty store. -/
def vs0 : VectorStore := { episodic := [], semantic := [], nextId := 0 }

/-- Store holding exactly two failure episodes. -/
def vsFailures : VectorStore :=
  { episodic := [⟨0, "f1", [("outcome", MetaVal.str "FAILURE")], [1]⟩,
                 ⟨1, "f2", [("outcome", MetaVal.str "FAILURE")], [2]⟩],
    semantic := [], nextId := 2 }

/-- Two fetched failure dictionaries as the spec intends them: content,
metadata, embedding and distance all present. -/
def failuresW : List PyDict :=
  [[("content", Val.str "f1"), ("metadata", Val.meta [("outcome", MetaVal.str "FAILURE")]),
    ("embedding", Val.emb [1]), ("distance", Val.rat 0)],
   [("content", Val.str "f2"), ("metadata", Val.meta [("outcome", MetaVal.str "FAILURE")]),
    ("embedding", Val.emb [2]), ("distance", Val.rat 0)]]

/-- The embeddings of `failuresW`. -/
def embsW : List (List Rat) := [[1], [2]]

/-- The rule record that the concrete successful run consolidates. -/
def recW : EmbRec :=
  ⟨0, "IF a THEN b BECAUSE c", ruleMetadata 2 0, embedW "IF a THEN b BECAUSE c"⟩

/-! Helper lemmas. -/

lemma insertSorted_length {α : Type _} (le : α → α → Bool) (x : α) (l : List α) :
    (insertSorted le x l).length = l.length + 1 := by
  induction l with
  | nil => rfl
  | cons y ys ih =>
      unfold insertSorted
      by_cases h : le x y = true
      · simp [h]
      · simp [h, ih]

lemma insertionSortBy_length {α : Type _} (le : α → α → Bool) (l : List α) :
    (insertionSortBy le l).length = l.length := by
  induction l with
  | nil => rfl
  | cons y ys ih => simp [insertionSortBy, insertSorted_length, ih]

lemma query_result_length_le (embed : String → List Rat) (dist : List Rat → List Rat → Rat)
    (recs : List EmbRec) (q : String) (n : Nat) (w : Option Metadata) :
    (VectorStore.formatResults (collectionQuery embed dist recs q n w)).length ≤ n := by
  simp [VectorStore.formatResults, collectionQuery]

lemma processCluster_counters (oracle : String → Rat → Except String String)
    (procRun : String → Nat → ProcOutcome) (embed : String → List Rat)
    (failures : List PyDict) (clusters : List Int) (st : Dreamer × List Event) (cid : Int) :
    ((processCluster oracle procRun embed failures clusters st cid).1.total_consolidations
        = st.1.total_consolidations + 1) ∧
    ((processCluster oracle procRun embed failures clusters st cid).1.false_consolidations
        = st.1.false_consolidations
            + (if clusterVerified oracle procRun failures clusters cid then 0 else 1)) := by
  unfold processCluster clusterVerified
  by_cases h : verifyRule procRun (generateDreamScenario oracle
      (abstractRule oracle (clusterFailuresOf failures clusters cid))) = true
  · simp [h]
  · simp [h]

lemma processCluster_semantic (oracle : String → Rat → Except String String)
    (procRun : String → Nat → ProcOutcome) (embed : String → List Rat)
    (failures : List PyDict) (clusters : List Int) (st : Dreamer × List Event) (cid : Int) :
    (processCluster oracle procRun embed failures clusters st cid).1.store.semantic
      = st.1.store.semantic ++
          (if clusterVerified oracle procRun failures clusters cid then
            [⟨st.1.store.nextId,
              abstractRule oracle (clusterFailuresOf failures clusters cid),
              ruleMetadata (clusterFailuresOf failures clusters cid).length cid,
              embed (abstractRule oracle (clusterFailuresOf failures clusters cid))⟩]
          else []) := by
  unfold processCluster clusterVerified
  by_cases h : verifyRule procRun (generateDreamScenario oracle
      (abstractRule oracle (clusterFailuresOf failures clusters cid))) = true
  · simp [h, VectorStore.add_rule]
  · simp [h]

lemma processCluster_trace (oracle : String → Rat → Except String String)
    (procRun : String → Nat → ProcOutcome) (embed : String → List Rat)
    (failures : List PyDict) (clusters : List Int) (st : Dreamer × List Event) (cid : Int) :
    (processCluster oracle procRun embed failures clusters st cid).2
      = st.2 ++
          [Event.verifyCall
            (generateDreamScenario oracle (abstractRule oracle (clusterFailuresOf failures clusters cid)))
            (clusterVerified oracle procRun failures clusters cid)] ++
          (if clusterVerified oracle procRun failures clusters cid then
            [Event.storeRule (abstractRule oracle (clusterFailuresOf failures clusters cid))
              (ruleMetadata (clusterFailuresOf failures clusters cid).length cid)]
          else []) := by
  unfold processCluster clusterVerified
  by_cases h : verifyRule procRun (generateDreamScenario oracle
      (abstractRule oracle (clusterFailuresOf failures clusters cid))) = true
  · simp [h]
  · simp [h]

lemma foldl_trace_ext (oracle : String → Rat → Except String String)
    (procRun : String → Nat → ProcOutcome) (embed : String → List Rat)
    (failures : List PyDict) (clusters : List Int) :
    ∀ (cids : List Int) (st : Dreamer × List Event),
      ∃ tl, (cids.foldl (processCluster oracle procRun embed failures clusters) st).2
              = st.2 ++ tl := by
  intro cids
  induction cids with
  | nil => intro st; exact ⟨[], by simp⟩
  | cons c cs ih =>
      intro st
      obtain ⟨t2, h2⟩ := ih (processCluster oracle procRun embed failures clusters st c)
      simp only [List.foldl_cons, h2, processCluster_trace, List.append_assoc]
      exact ⟨_, rfl⟩

lemma consolidatedWithVerification_append (oracle : String → Rat → Except String String)
    (procRun : String → Nat → ProcOutcome) (evs tl : List Event) (r : EmbRec)
    (h : consolidatedWithVerification oracle procRun evs r) :
    consolidatedWithVerification oracle procRun (evs ++ tl) r := by
  obtain ⟨hmeta, hver, l₁, l₂, hsplit, hmem⟩ := h
  exact ⟨hmeta, hver, l₁, l₂ ++ tl, by rw [hsplit]; simp, hmem⟩

lemma foldl_commit_inv (oracle : String → Rat → Except String String)
    (procRun : String → Nat → ProcOutcome) (embed : String → List Rat)
    (failures : List PyDict) (clusters : List Int) :
    ∀ (cids : List Int) (st : Dreamer × List Event) (r : EmbRec),
      r ∈ (cids.foldl (processCluster oracle procRun embed failures clusters) st).1.store.semantic →
      r ∈ st.1.store.semantic ∨
        consolidatedWithVerification oracle procRun
          (cids.foldl (processCluster oracle procRun embed failures clusters) st).2 r := by
  intro cids
  induction cids with
  | nil => intro st r hr; exact Or.inl hr
  | cons c cs ih =>
      intro st r hr
      rw [List.foldl_cons] at hr
      rcases ih (processCluster oracle procRun embed failures clusters st c) r hr with h | h
      · rw [processCluster_semantic] at h
        rcases List.mem_append.mp h with h' | h'
        · exact Or.inl h'
        · by_cases hv : clusterVerified oracle procRun failures clusters c = true
          · rw [if_pos hv] at h'
            rcases List.mem_singleton.mp h' with rfl
            right
            obtain ⟨tl, htl⟩ := foldl_trace_ext oracle procRun embed failures clusters cs
              (processCluster oracle procRun embed failures clusters st c)
            rw [List.foldl_cons, htl, processCluster_trace, if_pos hv]
            refine ⟨⟨_, _, rfl⟩, ?_, ?_⟩
            · have := hv
              unfold clusterVerified at this
              exact this
            · refine ⟨st.2 ++ [Event.verifyCall (generateDreamScenario oracle
                (abstractRule oracle (clusterFailuresOf failures clusters c))) true], tl, ?_, ?_⟩
              · rw [hv]
                simp
              · simp
          · rw [if_neg hv] at h'
            simp at h'
      · right
        exact h

lemma foldl_total (oracle : String → Rat → Except String String)
    (procRun : String → Nat → ProcOutcome) (embed : String → List Rat)
    (failures : List PyDict) (clusters : List Int) :
    ∀ (cids : List Int) (st : Dreamer × List Event),
      (cids.foldl (processCluster oracle procRun embed failures clusters) st).1.total_consolidations
        = st.1.total_consolidations + cids.length := by
  intro cids
  induction cids with
  | nil => intro st; rfl
  | cons c cs ih =>
      intro st
      rw [List.foldl_cons, ih, (processCluster_counters oracle procRun embed failures clusters st c).1]
      simp [Nat.add_assoc, Nat.add_comm 1 cs.length]

lemma foldl_false (oracle : String → Rat → Except String String)
    (procRun : String → Nat → ProcOutcome) (embed : String → List Rat)
    (failures : List PyDict) (clusters : List Int) :
    ∀ (cids : List Int) (st : Dreamer × List Event),
      (cids.foldl (processCluster oracle procRun embed failures clusters) st).1.false_consolidations
        = st.1.false_consolidations
            + (cids.filter (fun cid => ! clusterVerified oracle procRun failures clusters cid)).length := by
  intro cids
  induction cids with
  | nil => intro st; rfl
  | cons c cs ih =>
      intro st
      rw [List.foldl_cons, ih, (processCluster_counters oracle procRun embed failures clusters st c).2]
      by_cases hv : clusterVerified oracle procRun failures clusters c = true
      · simp [hv, List.filter_cons]
      · simp only [Bool.not_eq_true] at hv
        simp [hv, List.filter_cons]
        omega

/-! Claim theorems. -/

/-- C1: every Rule record present in semantic memory that was written by a
consolidation cycle (i.e. is not one of the records that were already there)
carries metadata `{source: dream_consolidation, verified: true, cluster_size,
cluster_id}`, its dream scenario passes verification, and in the cycle's
event trace a verifier call on that scenario returning success precedes the
write; a candidate that fails verification is never stored. -/
theorem dream_commit_invariant (oracle : String → Rat → Except String String)
    (clusterFn : Rat → Nat → List (List Rat) → List Int)
    (procRun : String → Nat → ProcOutcome) (embed : String → List Rat)
    (failures : List PyDict) (embs : List (List Rat)) (d : Dreamer) (ev0 : List Event)
    (r : EmbRec)
    (hr : r ∈ (dreamBody oracle clusterFn procRun embed failures embs d ev0).1.store.semantic)
    (hnew : r ∉ d.store.semantic) :
    consolidatedWithVerification oracle procRun
      (dreamBody oracle clusterFn procRun embed failures embs d ev0).2 r := by
  unfold dreamBody at hr ⊢
  rcases foldl_commit_inv oracle procRun embed failures (clusterFn d.epsilon d.min_pts embs)
      (uniqueClustersOf (clusterFn d.epsilon d.min_pts embs)) (d, ev0) r hr with h | h
  · exact absurd h hnew
  · exact h

/-- C1 witness: a concrete successful cycle (two failures, one cluster, an
oracle that answers and a scenario that executes cleanly) stores exactly the
record `recW`, and the theorem yields its verification evidence. -/
theorem dream_commit_invariant_witness :
    consolidatedWithVerification oracleOkW procRunOkW
      (dreamBody oracleOkW clusterOneW procRunOkW embedW failuresW embsW (mkDreamer vs0) []).2
      recW :=
  dream_commit_invariant oracleOkW clusterOneW procRunOkW embedW failuresW embsW
    (mkDreamer vs0) [] recW (by decide) (by decide)

/-- C10: counters never go down and the false counter never overtakes the
total: each processed cluster increments `total_consolidations` by exactly 1
and `false_consolidations` by exactly 1 iff verification fails; over a whole
cycle the totals grow by the number of non-noise clusters resp. the number
of failed verifications, so `false ≤ total` is preserved and both counters
are monotone. -/
theorem consolidation_counters_invariant (oracle : String → Rat → Except String String)
    (clusterFn : Rat → Nat → List (List Rat) → List Int)
    (procRun : String → Nat → ProcOutcome) (embed : String → List Rat)
    (failures : List PyDict) (embs : List (List Rat)) (d : Dreamer) (ev0 : List Event) :
    (∀ (st : Dreamer × List Event) (cid : Int),
      (processCluster oracle procRun embed failures (clusterFn d.epsilon d.min_pts embs) st cid).1.total_consolidations
          = st.1.total_consolidations + 1 ∧
      (processCluster oracle procRun embed failures (clusterFn d.epsilon d.min_pts embs) st cid).1.false_consolidations
          = st.1.false_consolidations
              + (if clusterVerified oracle procRun failures (clusterFn d.epsilon d.min_pts embs) cid then 0 else 1)) ∧
    (dreamBody oracle clusterFn procRun embed failures embs d ev0).1.total_consolidations
        = d.total_consolidations + (uniqueClustersOf (clusterFn d.epsilon d.min_pts embs)).length ∧
    (dreamBody oracle clusterFn procRun embed failures embs d ev0).1.false_consolidations
        = d.false_consolidations
            + ((uniqueClustersOf (clusterFn d.epsilon d.min_pts embs)).filter
                (fun cid => ! clusterVerified oracle procRun failures (clusterFn d.epsilon d.min_pts embs) cid)).length ∧
    d.total_consolidations ≤ (dreamBody oracle clusterFn procRun embed failures embs d ev0).1.total_consolidations ∧
    d.false_consolidations ≤ (dreamBody oracle clusterFn procRun embed failures embs d ev0).1.false_consolidations ∧
    (d.false_consolidations ≤ d.total_consolidations →
      (dreamBody oracle clusterFn procRun embed failures embs d ev0).1.false_consolidations
        ≤ (dreamBody oracle clusterFn procRun embed failures embs d ev0).1.total_consolidations) := by
  have htot := foldl_total oracle procRun embed failures (clusterFn d.epsilon d.min_pts embs)
    (uniqueClustersOf (clusterFn d.epsilon d.min_pts embs)) (d, ev0)
  have hfls := foldl_false oracle procRun embed failures (clusterFn d.epsilon d.min_pts embs)
    (uniqueClustersOf (clusterFn d.epsilon d.min_pts embs)) (d, ev0)
  have hle := List.length_filter_le
    (fun cid => ! clusterVerified oracle procRun failures (clusterFn d.epsilon d.min_pts embs) cid)
    (uniqueClustersOf (clusterFn d.epsilon d.min_pts embs))
  have htot' : (dreamBody oracle clusterFn procRun embed failures embs d ev0).1.total_consolidations
      = d.total_consolidations + (uniqueClustersOf (clusterFn d.epsilon d.min_pts embs)).length := htot
  have hfls' : (dreamBody oracle clusterFn procRun embed failures embs d ev0).1.false_consolidations
      = d.false_consolidations
          + ((uniqueClustersOf (clusterFn d.epsilon d.min_pts embs)).filter
              (fun cid => ! clusterVerified oracle procRun failures (clusterFn d.epsilon d.min_pts embs) cid)).length := hfls
  refine ⟨fun st cid => processCluster_counters oracle procRun embed failures
    (clusterFn d.epsilon d.min_pts embs) st cid, htot', hfls', ?_, ?_, ?_⟩
  · omega
  · omega
  · intro h
    omega

/-- C10 witness: on the concrete failing-verification run the counters end
at `false = total = 1`, and the preserved inequality is obtained from the
theorem. -/
theorem consolidation_counters_invariant_witness :
    (dreamBody oracleOkW clusterOneW procRunFailW embedW failuresW embsW (mkDreamer vs0) []).1.false_consolidations
      ≤ (dreamBody oracleOkW clusterOneW procRunFailW embedW failuresW embsW (mkDreamer vs0) []).1.total_consolidations :=
  (consolidation_counters_invariant oracleOkW clusterOneW procRunFailW embedW failuresW embsW
    (mkDreamer vs0) []).2.2.2.2.2 (by decide)

/-- C3 counterexample: the claim says the reported rate is at most 1 and
equals `false_consolidations / total_consolidations`; after a concrete cycle
whose single cluster fails verification the counters are 1/1, yet the code
reports 100 (a percentage), which exceeds 1. -/
theorem false_consolidation_rate_counterexample :
    (Dreamer.get_consolidation_stats
        (dreamBody oracleOkW clusterOneW procRunFailW embedW failuresW embsW (mkDreamer vs0) []).1).false_consolidations = 1 ∧
    (Dreamer.get_consolidation_stats
        (dreamBody oracleOkW clusterOneW procRunFailW embedW failuresW embsW (mkDreamer vs0) []).1).total_consolidations = 1 ∧
    (Dreamer.get_consolidation_stats
        (dreamBody oracleOkW clusterOneW procRunFailW embedW failuresW embsW (mkDreamer vs0) []).1).false_consolidation_rate = 100 ∧
    ¬ ((Dreamer.get_consolidation_stats
        (dreamBody oracleOkW clusterOneW procRunFailW embedW failuresW embsW (mkDreamer vs0) []).1).false_consolidation_rate ≤ 1) := by
  have h1 : (dreamBody oracleOkW clusterOneW procRunFailW embedW failuresW embsW (mkDreamer vs0) []).1.false_consolidations = 1 := by decide
  have h2 : (dreamBody oracleOkW clusterOneW procRunFailW embedW failuresW embsW (mkDreamer vs0) []).1.total_consolidations = 1 := by decide
  refine ⟨h1, h2, ?_, ?_⟩
  · simp [Dreamer.get_consolidation_stats, h1, h2]
  · simp [Dreamer.get_consolidation_stats, h1, h2]

/-- C3 (amended): the reported `false_consolidation_rate` is a percentage:
whenever `false_consolidations ≤ total_consolidations` it satisfies
`0 ≤ rate ≤ 100`, equals `false/total * 100` when `total > 0`, and equals 0
when `total = 0`. -/
theorem false_consolidation_rate_percent (d : Dreamer)
    (h : d.false_consolidations ≤ d.total_consolidations) :
    0 ≤ (Dreamer.get_consolidation_stats d).false_consolidation_rate ∧
    (Dreamer.get_consolidation_stats d).false_consolidation_rate ≤ 100 ∧
    (0 < d.total_consolidations →
      (Dreamer.get_consolidation_stats d).false_consolidation_rate
        = (d.false_consolidations : Rat) / (d.total_consolidations : Rat) * 100) ∧
    (d.total_consolidations = 0 →
      (Dreamer.get_consolidation_stats d).false_consolidation_rate = 0) := by
  unfold Dreamer.get_consolidation_stats
  rcases Nat.eq_zero_or_pos d.total_consolidations with h0 | h0
  · simp [h0]
  · have hpos : (0 : Rat) < (d.total_consolidations : Rat) := by exact_mod_cast h0
    have hcast : (d.false_consolidations : Rat) ≤ (d.total_consolidations : Rat) := by
      exact_mod_cast h
    have hdiv : (d.false_consolidations : Rat) / (d.total_consolidations : Rat) ≤ 1 :=
      (div_le_one hpos).mpr hcast
    have hnn : (0 : Rat) ≤ (d.false_consolidations : Rat) / (d.total_consolidations : Rat) := by
      positivity
    refine ⟨?_, ?_, ?_, ?_⟩
    · simp only [h0, if_pos]
      nlinarith
    · simp only [h0, if_pos]
      nlinarith
    · intro _
      simp [h0]
    · intro hz
      omega

/-- C3 witness: a dreamer with 1 false of 2 total consolidations; the rate
is 50, within the amended bounds. -/
theorem false_consolidation_rate_percent_witness :
    0 ≤ (Dreamer.get_consolidation_stats
          { store := vs0, epsilon := (3 : Rat) / 10, min_pts := 2,
            false_consolidations := 1, total_consolidations := 2 }).false_consolidation_rate ∧
    (Dreamer.get_consolidation_stats
          { store := vs0, epsilon := (3 : Rat) / 10, min_pts := 2,
            false_consolidations := 1, total_consolidations := 2 }).false_consolidation_rate ≤ 100 ∧
    (0 < (2 : Nat) →
      (Dreamer.get_consolidation_stats
          { store := vs0, epsilon := (3 : Rat) / 10, min_pts := 2,
            false_consolidations := 1, total_consolidations := 2 }).false_consolidation_rate
        = ((1 : Nat) : Rat) / ((2 : Nat) : Rat) * 100) ∧
    ((2 : Nat) = 0 →
      (Dreamer.get_consolidation_stats
          { store := vs0, epsilon := (3 : Rat) / 10, min_pts := 2,
            false_consolidations := 1, total_consolidations := 2 }).false_consolidation_rate = 0) :=
  false_consolidation_rate_percent
    { store := vs0, epsilon := (3 : Rat) / 10, min_pts := 2,
      false_consolidations := 1, total_consolidations := 2 } (by decide)

/-- C4: the consolidation cycle fetches failures via `query_episodic` with
limit 20 and the filter `outcome = FAILURE`, and when fewer than `min_pts`
failures come back the cycle returns with zero state change: the dreamer
(store and both counters) is returned untouched and the trace holds only the
fetch, no store write. -/
theorem dream_insufficient_failures_noop (oracle : String → Rat → Except String String)
    (clusterFn : Rat → Nat → List (List Rat) → List Int)
    (procRun : String → Nat → ProcOutcome) (embed : String → List Rat)
    (dist : List Rat → List Rat → Rat) (d : Dreamer)
    (h : (d.store.query_episodic embed dist "failure error" 20 failureFilter).length < d.min_pts) :
    Dreamer.dream oracle clusterFn procRun embed dist d
      = Except.ok (d, [Event.queryEpisodic "failure error" 20 failureFilter]) := by
  unfold Dreamer.dream
  simp [h]

/-- C4 witness: on an empty store the fetch returns no failures (0 < 2) and
`dream` is the identity on the dreamer state. -/
theorem dream_insufficient_failures_noop_witness :
    Dreamer.dream oracleOkW clusterOneW procRunOkW embedW distW (mkDreamer vs0)
      = Except.ok (mkDreamer vs0, [Event.queryEpisodic "failure error" 20 failureFilter]) :=
  dream_insufficient_failures_noop oracleOkW clusterOneW procRunOkW embedW distW
    (mkDreamer vs0) (by decide)

/-- C5: `execute(code, timeout)` succeeds iff the spawned process terminates
normally with a zero exit status within the timeout (the `completed` outcome
of the external runner); on normal completion stdout and stderr are
concatenated into `output` and the exit status is reported; on timeout the
result is `success = false`, the timeout message and the negative sentinel
exit code -1; on a launch/IO exception the result is `success = false` with
the exception text as `output` and exit code -1. -/
theorem execute_success_iff (procRun : String → Nat → ProcOutcome)
    (code : String) (timeout : Nat) :
    ((Executor.execute procRun code timeout).success = true ↔
      ∃ out err, procRun code timeout = ProcOutcome.completed out err 0) ∧
    (∀ out err rc, procRun code timeout = ProcOutcome.completed out err rc →
      Executor.execute procRun code timeout
        = { success := rc == 0, output := out ++ err, return_code := rc }) ∧
    (procRun code timeout = ProcOutcome.timedOut →
      Executor.execute procRun code timeout
          = { success := false, output := "Execution Timed Out", return_code := -1 } ∧
      (Executor.execute procRun code timeout).return_code < 0) ∧
    (∀ msg, procRun code timeout = ProcOutcome.raised msg →
      Executor.execute procRun code timeout
        = { success := false, output := msg, return_code := -1 }) := by
  cases h : procRun code timeout with
  | completed out err rc =>
      refine ⟨?_, ?_, ?_, ?_⟩
      · simp [Executor.execute, execResultOf, h, beq_iff_eq]
      · intro out' err' rc' h'
        cases h'
        simp [Executor.execute, execResultOf, h]
      · intro h'
        cases h'
      · intro msg h'
        cases h'
  | timedOut =>
      refine ⟨?_, ?_, ?_, ?_⟩
      · simp [Executor.execute, execResultOf, h]
      · intro out' err' rc' h'
        cases h'
      · intro _
        refine ⟨by simp [Executor.execute, execResultOf, h], ?_⟩
        simp [Executor.execute, execResultOf, h]
      · intro msg h'
        cases h'
  | raised msg =>
      refine ⟨?_, ?_, ?_, ?_⟩
      · simp [Executor.execute, execResultOf, h]
      · intro out' err' rc' h'
        cases h'
      · intro h'
        cases h'
      · intro msg' h'
        cases h'
        simp [Executor.execute, execResultOf, h]

/-- C5 witness: a runner whose process exits cleanly makes `execute` report
success with the concatenated output. -/
theorem execute_success_iff_witness :
    Executor.execute procRunOkW "print(1)" 10
      = { success := ((0 : Int) == 0), output := "ok" ++ "", return_code := 0 } :=
  (execute_success_iff procRunOkW "print(1)" 10).2.1 "ok" "" 0 rfl

/-- C6: the staging temp file is removed on every exit path of `execute`
(normal completion, timeout and exception are all instances of the universally
quantified runner outcome), and no other file is touched. -/
theorem execute_temp_file_removed (procRun : String → Nat → ProcOutcome)
    (fs : Finset String) (pid : Nat) (code : String) (timeout : Nat) :
    tempFileName pid ∉ (Executor.executeFs procRun fs pid code timeout).2 ∧
    (∀ f ∈ fs, f ≠ tempFileName pid →
      f ∈ (Executor.executeFs procRun fs pid code timeout).2) := by
  unfold Executor.executeFs
  simp only [Finset.mem_insert, true_or, if_true]
  constructor
  · exact Finset.not_mem_erase _ _
  · intro f hf hne
    exact Finset.mem_erase.mpr ⟨hne, Finset.mem_insert_of_mem hf⟩

/-- C6 witness: with one unrelated file present and a raising runner, the
temp file is gone after the call and the unrelated file survives. -/
theorem execute_temp_file_removed_witness :
    tempFileName 7 ∉ (Executor.executeFs procRunFailW {"keep.txt"} 7 "x" 10).2 ∧
    "keep.txt" ∈ (Executor.executeFs procRunFailW {"keep.txt"} 7 "x" 10).2 :=
  ⟨(execute_temp_file_removed procRunFailW {"keep.txt"} 7 "x" 10).1,
   (execute_temp_file_removed procRunFailW {"keep.txt"} 7 "x" 10).2 "keep.txt"
     (by decide) (by decide)⟩

/-- C7: when the completion oracle fails, `_abstract_rule` returns the
sentinel rule text and `_generate_dream_scenario` the sentinel scenario;
the per-cluster step still performs a verifier call on that sentinel
scenario and completes normally (it is a total function), so an oracle
failure never aborts the cycle nor propagates an exception. -/
theorem oracle_failure_recovered (oracle : String → Rat → Except String String)
    (procRun : String → Nat → ProcOutcome) (embed : String → List Rat)
    (failures : List PyDict) (clusters : List Int) (st : Dreamer × List Event)
    (cid : Int) (cf : List PyDict) (rule : String)
    (hfail : ∀ p t, ∃ e, oracle p t = Except.error e) :
    abstractRule oracle cf = "Error abstracting rule." ∧
    generateDreamScenario oracle rule = "print(\x27Error generating dream\x27)" ∧
    Event.verifyCall "print(\x27Error generating dream\x27)"
        (verifyRule procRun "print(\x27Error generating dream\x27)")
      ∈ (processCluster oracle procRun embed failures clusters st cid).2 := by
  have habs : ∀ cf' : List PyDict, abstractRule oracle cf' = "Error abstracting rule." := by
    intro cf'
    obtain ⟨e, he⟩ := hfail (abstractPrompt (String.intercalate "\n"
      (cf'.map (fun f => "- " ++ dictContent f)))) ((1 : Rat) / 2)
    simp only [abstractRule]
    rw [he]
  have hgen : ∀ r : String,
      generateDreamScenario oracle r = "print(\x27Error generating dream\x27)" := by
    intro r
    obtain ⟨e, he⟩ := hfail (dreamPrompt r) ((4 : Rat) / 5)
    simp only [generateDreamScenario]
    rw [he]
  refine ⟨habs cf, hgen rule, ?_⟩
  rw [processCluster_trace]
  rw [hgen (abstractRule oracle (clusterFailuresOf failures clusters cid))]
  by_cases hv : clusterVerified oracle procRun failures clusters cid = true
  · rw [hv]
    have hvr : verifyRule procRun "print(\x27Error generating dream\x27)" = true := by
      have := hv
      unfold clusterVerified at this
      rw [hgen (abstractRule oracle (clusterFailuresOf failures clusters cid))] at this
      exact this
    rw [hvr]
    simp
  · simp only [Bool.not_eq_true] at hv
    rw [hv]
    have hvr : verifyRule procRun "print(\x27Error generating dream\x27)" = false := by
      have := hv
      unfold clusterVerified at this
      rw [hgen (abstractRule oracle (clusterFailuresOf failures clusters cid))] at this
      exact this
    rw [hvr]
    simp

/-- C7 witness: with the always-failing oracle on a concrete cluster step,
both sentinels are produced and the sentinel scenario is verified. -/
theorem oracle_failure_recovered_witness :
    abstractRule oracleFailW failuresW = "Error abstracting rule." ∧
    generateDreamScenario oracleFailW "IF a THEN b BECAUSE c"
        = "print(\x27Error generating dream\x27)" ∧
    Event.verifyCall "print(\x27Error generating dream\x27)"
        (verifyRule procRunOkW "print(\x27Error generating dream\x27)")
      ∈ (processCluster oracleFailW procRunOkW embedW failuresW [0, 0]
          (mkDreamer vs0, []) 0).2 :=
  oracle_failure_recovered oracleFailW procRunOkW embedW failuresW [0, 0]
    (mkDreamer vs0, []) 0 failuresW "IF a THEN b BECAUSE c"
    (fun _ _ => ⟨"boom", rfl⟩)

/-- C2 (code bug): `query_episodic` formats each fetched record with exactly
the keys `content`, `metadata` and `distance` — no `embedding` key — so on a
store holding two failure episodes the consolidation cycle's embedding
extraction `f['embedding']` raises a `KeyError` instead of clustering. -/
theorem query_episodic_missing_embedding_bug :
    (VectorStore.query_episodic embedW distW vsFailures "failure error" 20 failureFilter).map
        (fun rec => rec.map Prod.fst)
      = [["content", "metadata", "distance"], ["content", "metadata", "distance"]] ∧
    (VectorStore.query_episodic embedW distW vsFailures "failure error" 20 failureFilter).map
        (fun rec => dictGet rec "embedding")
      = [none, none] ∧
    Dreamer.dream oracleOkW clusterOneW procRunOkW embedW distW (mkDreamer vsFailures)
      = Except.error "KeyError: embedding" := by
  refine ⟨by decide, by decide, rfl⟩

/-- C8 (amended): `retrieve_context` queries semantic memory for up to 2
nearest rules and episodic memory for up to 3 nearest episodes — filtered by
exact `error_type` equality exactly when a NON-EMPTY error type is provided
(Python truthiness also drops an empty string) — and concatenates the
labelled rules section first and the labelled episodes section second, each
episode annotated with its recorded outcome; an empty section contributes
nothing and when both are empty the result is the empty string. -/
theorem retrieve_context_spec (embed : String → List Rat)
    (dist : List Rat → List Rat → Rat) (s : VectorStore) (q : String)
    (et : Option String) :
    HybridRetriever.retrieve_context embed dist s q et
        = String.intercalate "\n"
            (rulesSectionOf (s.query_semantic embed dist q 2)
              ++ episodesSectionOf (s.query_episodic embed dist q 3 (retrievalWhere et))) ∧
    (s.query_semantic embed dist q 2).length ≤ 2 ∧
    (s.query_episodic embed dist q 3 (retrievalWhere et)).length ≤ 3 ∧
    (s.query_semantic embed dist q 2 = [] →
      s.query_episodic embed dist q 3 (retrievalWhere et) = [] →
      HybridRetriever.retrieve_context embed dist s q et = "") ∧
    retrievalWhere none = none ∧
    (∀ x : String, x ≠ "" →
      retrievalWhere (some x) = some [("error_type", MetaVal.str x)]) := by
  refine ⟨rfl, ?_, ?_, ?_, rfl, ?_⟩
  · exact query_result_length_le embed dist s.semantic q 2 none
  · exact query_result_length_le embed dist s.episodic q 3 (retrievalWhere et)
  · intro h1 h2
    unfold HybridRetriever.retrieve_context
    rw [h1, h2]
    rfl
  · intro x hx
    simp [retrievalWhere, hx]

/-- C8 witness: with a non-empty error type the filter is applied as exact
metadata equality on `error_type`. -/
theorem retrieve_context_spec_witness :
    retrievalWhere (some "RuntimeError")
      = some [("error_type", MetaVal.str "RuntimeError")] :=
  (retrieve_context_spec embedW distW vsFailures "q" (some "RuntimeError")).2.2.2.2.2
    "RuntimeError" (by decide)

/-- C8 counterexample: providing the empty-string error type yields no
filter at all (Python truthiness), so episodes whose `error_type` differs
from the provided one are still returned: on a store whose two episodes
carry no matching `error_type` the claimed filtered result would be empty,
yet the code returns both episodes. -/
theorem retrieve_context_empty_error_type_counterexample :
    retrievalWhere (some "") = none ∧
    some "" ≠ (none : Option String) ∧
    HybridRetriever.retrieve_context embedW distW vsFailures "q" (some "")
      = "\n--- RELEVANT PAST EXPERIENCES ---\nEPISODE: f1\nOUTCOME: FAILURE\nEPISODE: f2\nOUTCOME: FAILURE" ∧
    vsFailures.episodic.filter
        (fun r => decide (metaGet r.metadata "error_type" = some (MetaVal.str ""))) = [] := by
  exact ⟨rfl, by decide, by decide, by decide⟩

/-- C9 (amended): `add_episode(content, metadata)` assigns a fresh id that no
existing record carries, appends exactly one new record to the episodic
collection leaving every existing record and the semantic collection
untouched (no dedup, no overwrite), always succeeds — but returns `None`,
not the assigned id. -/
theorem add_episode_appends_fresh (embed : String → List Rat) (s : VectorStore)
    (text : String) (m : Metadata) (hwf : s.wellFormed = true) :
    (s.add_episode embed text m).1.episodic
        = s.episodic ++ [⟨s.nextId, text, m, embed text⟩] ∧
    (s.add_episode embed text m).1.semantic = s.semantic ∧
    (∀ r ∈ s.episodic, r.id ≠ s.nextId) ∧
    (s.add_episode embed text m).1.wellFormed = true ∧
    (s.add_episode embed text m).2 = none := by
  have hwf' : ∀ r ∈ s.episodic ++ s.semantic, r.id < s.nextId := by
    intro r hr
    have := List.all_eq_true.mp hwf r hr
    simpa using this
  refine ⟨rfl, rfl, ?_, ?_, rfl⟩
  · intro r hr
    exact Nat.ne_of_lt (hwf' r (List.mem_append_left _ hr))
  · apply List.all_eq_true.mpr
    intro r hr
    simp only [VectorStore.add_episode, List.append_assoc, List.mem_append,
      List.mem_singleton] at hr
    simp only [decide_eq_true_eq]
    rcases hr with h | h | h
    · exact Nat.lt_succ_of_lt (hwf' r (List.mem_append_left _ h))
    · rw [h]
      exact Nat.lt_succ_self _
    · exact Nat.lt_succ_of_lt (hwf' r (List.mem_append_right _ h))

/-- C9 witness: adding to the empty store appends the record with fresh id 0
and returns `None`. -/
theorem add_episode_appends_fresh_witness :
    (vs0.add_episode embedW "ep" []).1.episodic
        = vs0.episodic ++ [⟨vs0.nextId, "ep", [], embedW "ep"⟩] ∧
    (vs0.add_episode embedW "ep" []).1.semantic = vs0.semantic ∧
    (∀ r ∈ vs0.episodic, r.id ≠ vs0.nextId) ∧
    (vs0.add_episode embedW "ep" []).1.wellFormed = true ∧
    (vs0.add_episode embedW "ep" []).2 = none :=
  add_episode_appends_fresh embedW vs0 "ep" [] (by decide)

/-- C9 counterexample: the claim says the call returns the assigned id; at a
concrete input the assigned id is 0 but the call returns `None`, which is not
`some 0` (nor any id). -/
theorem add_episode_return_counterexample :
    (vs0.add_episode embedW "ep" []).2 = none ∧
    (vs0.add_episode embedW "ep" []).1.episodic.map (fun r => r.id) = [0] ∧
    (vs0.add_episode embedW "ep" []).2 ≠ some 0 := by
  exact ⟨rfl, by decide, by decide⟩

end ADMem
